import Mathlib

/-!
Verification of the trading-engine core of the nautier-tradetron repository
against its natural-language specification.

The Python sources are shallowly embedded: Python dicts become association
lists with insertion-order-preserving assignment, floats become exact
rationals, and each method becomes a pure Lean function on an explicit
state value.  The event record types (module app.events) are not part of
the sources; their fields are modelled from the spec (section 3) and from
the constructor calls in the sources.
-/

/-- Association-list lookup; embeds Python `dict[k]` / `dict.get(k)`. -/
def dictGet {α β : Type} [DecidableEq α] : List (α × β) → α → Option β
  | [], _ => none
  | (k0, v0) :: rest, k => if k0 = k then some v0 else dictGet rest k

/-- Association-list assignment; embeds Python `dict[k] = v` (overwrites the
existing entry in place, otherwise appends, preserving insertion order). -/
def dictSet {α β : Type} [DecidableEq α] : List (α × β) → α → β → List (α × β)
  | [], k, v => [(k, v)]
  | (k0, v0) :: rest, k, v =>
    if k0 = k then (k, v) :: rest else (k0, v0) :: dictSet rest k v

/-- Keys of an association list, in order. -/
def dictKeys {α β : Type} (m : List (α × β)) : List α := m.map Prod.fst

theorem dictGet_eq_none_iff {α β : Type} [DecidableEq α]
    (m : List (α × β)) (k : α) : dictGet m k = none ↔ k ∉ dictKeys m := by
  induction m with
  | nil => simp [dictGet, dictKeys]
  | cons hd tl ih =>
    obtain ⟨k0, v0⟩ := hd
    by_cases h : k0 = k
    · subst h
      simp [dictGet, dictKeys]
    · simp [dictGet, dictKeys, h, ih, Ne.symm h]

theorem dictGet_none_of_keys_eq {α β γ : Type} [DecidableEq α]
    (m1 : List (α × β)) (m2 : List (α × γ)) (k : α)
    (hkeys : dictKeys m1 = dictKeys m2) (h : dictGet m1 k = none) :
    dictGet m2 k = none := by
  rw [dictGet_eq_none_iff] at h ⊢
  rw [← hkeys]
  exact h

/-- Modelled from the spec: SignalEvent (module app.events is absent from the
sources; fields per section 3 and the constructor call in engine/core.py). -/
structure SignalEvent where
  user_id : Nat
  strategy_id : Nat
  symbol : String
  signal : String
  strength : Rat
deriving DecidableEq

/-- Modelled from the spec: RiskBlockEvent (module app.events is absent from
the sources; fields per section 3 and the constructor calls in
risk/\_\_init\_\_.py). -/
structure RiskBlockEvent where
  user_id : Nat
  strategy_id : Nat
  reason : String
  signal : Option SignalEvent := none
deriving DecidableEq

/-- Risk configuration per strategy (class RiskConfig, risk/\_\_init\_\_.py). -/
structure RiskConfig where
  max_daily_loss : Rat := 5000
  max_trades_per_day : Nat := 50
  max_position_size : Rat := 100000
  max_leverage : Rat := 1
  kill_switch_enabled : Bool := true
deriving DecidableEq

/-- State of class RiskEngine (risk/\_\_init\_\_.py): three dicts keyed by
strategy id. -/
structure RiskEngine where
  configs : List (Nat × RiskConfig) := []
  daily_loss : List (Nat × Rat) := []
  trade_count : List (Nat × Nat) := []
deriving DecidableEq

/-- RiskEngine.register_strategy. -/
def RiskEngine.register_strategy (e : RiskEngine) (strategy_id : Nat)
    (config : RiskConfig) : RiskEngine :=
  { e with
    configs := dictSet e.configs strategy_id config
    daily_loss := dictSet e.daily_loss strategy_id 0
    trade_count := dictSet e.trade_count strategy_id 0 }

/-- RiskEngine.validate_signal.  Returns none when the signal is allowed,
some block event when it is blocked.  The direct dict accesses
self.daily_loss[sid] and self.trade_count[sid] (total on every state the
class can reach, since registration populates all three dicts together) are
rendered with a default of 0.  The numeric text interpolated into the two
limit reasons is rendered with toString. -/
def RiskEngine.validate_signal (e : RiskEngine) (signal : SignalEvent) :
    Option RiskBlockEvent :=
  let strategy_id := signal.strategy_id
  match dictGet e.configs strategy_id with
  | none =>
    some { user_id := signal.user_id, strategy_id := strategy_id,
           reason := "Strategy not registered" }
  | some config =>
    let loss := (dictGet e.daily_loss strategy_id).getD 0
    if loss ≥ config.max_daily_loss then
      some { user_id := signal.user_id, strategy_id := strategy_id,
             reason := "Daily loss limit reached: " ++ toString loss,
             signal := some signal }
    else
      let count := (dictGet e.trade_count strategy_id).getD 0
      if count ≥ config.max_trades_per_day then
        some { user_id := signal.user_id, strategy_id := strategy_id,
               reason := "Max trades per day reached: " ++ toString count,
               signal := some signal }
      else
        none

/-- RiskEngine.record_loss: only updates the counter when the strategy id is
already a key of the daily-loss dict. -/
def RiskEngine.record_loss (e : RiskEngine) (strategy_id : Nat) (loss : Rat) :
    RiskEngine :=
  match dictGet e.daily_loss strategy_id with
  | some v => { e with daily_loss := dictSet e.daily_loss strategy_id (v + loss) }
  | none => e

/-- RiskEngine.record_trade. -/
def RiskEngine.record_trade (e : RiskEngine) (strategy_id : Nat) : RiskEngine :=
  match dictGet e.trade_count strategy_id with
  | some c => { e with trade_count := dictSet e.trade_count strategy_id (c + 1) }
  | none => e

/-- RiskEngine.reset_daily. -/
def RiskEngine.reset_daily (e : RiskEngine) (strategy_id : Nat) : RiskEngine :=
  match dictGet e.daily_loss strategy_id with
  | some _ =>
    { e with daily_loss := dictSet e.daily_loss strategy_id 0
             trade_count := dictSet e.trade_count strategy_id 0 }
  | none => e

/-- A RiskEngine state is well formed when its three dicts are keyed by the
same strategy ids, in the same insertion order.  Every state reachable
through the class interface is well formed. -/
def RiskEngine.wf (e : RiskEngine) : Prop :=
  dictKeys e.configs = dictKeys e.daily_loss ∧
  dictKeys e.configs = dictKeys e.trade_count

/-- C1: validate_signal runs its checks in fixed priority order with
short-circuit: an unregistered strategy is blocked with reason
"Strategy not registered"; otherwise accumulated daily loss at or above
max_daily_loss blocks (with the loss reason, regardless of the trade
counter); otherwise a trade count at or above max_trades_per_day blocks;
otherwise the signal is allowed.  In particular, whenever the trade count
or the daily loss has reached its limit, validate_signal never allows. -/
theorem validate_signal_priority (e : RiskEngine) (s : SignalEvent) :
    (dictGet e.configs s.strategy_id = none →
      e.validate_signal s =
        some { user_id := s.user_id, strategy_id := s.strategy_id,
               reason := "Strategy not registered" }) ∧
    (∀ config, dictGet e.configs s.strategy_id = some config →
      (((dictGet e.daily_loss s.strategy_id).getD 0 ≥ config.max_daily_loss →
          e.validate_signal s =
            some { user_id := s.user_id, strategy_id := s.strategy_id,
                   reason := "Daily loss limit reached: " ++
                     toString ((dictGet e.daily_loss s.strategy_id).getD 0),
                   signal := some s }) ∧
        ((dictGet e.daily_loss s.strategy_id).getD 0 < config.max_daily_loss →
          (dictGet e.trade_count s.strategy_id).getD 0 ≥ config.max_trades_per_day →
          e.validate_signal s =
            some { user_id := s.user_id, strategy_id := s.strategy_id,
                   reason := "Max trades per day reached: " ++
                     toString ((dictGet e.trade_count s.strategy_id).getD 0),
                   signal := some s }) ∧
        ((dictGet e.daily_loss s.strategy_id).getD 0 < config.max_daily_loss →
          (dictGet e.trade_count s.strategy_id).getD 0 < config.max_trades_per_day →
          e.validate_signal s = none) ∧
        (((dictGet e.daily_loss s.strategy_id).getD 0 ≥ config.max_daily_loss ∨
          (dictGet e.trade_count s.strategy_id).getD 0 ≥ config.max_trades_per_day) →
          e.validate_signal s ≠ none))) := by
  refine ⟨fun h => ?_, fun config h => ?_⟩
  · simp [RiskEngine.validate_signal, h]
  · refine ⟨fun hl => ?_, fun hl ht => ?_, fun hl ht => ?_, fun hor => ?_⟩
    · simp [RiskEngine.validate_signal, h, hl]
    · simp [RiskEngine.validate_signal, h, not_le.mpr hl, ht]
    · simp [RiskEngine.validate_signal, h, not_le.mpr hl, not_le.mpr ht]
    · rcases hor with hl | ht
      · simp [RiskEngine.validate_signal, h, hl]
      · by_cases hl : (dictGet e.daily_loss s.strategy_id).getD 0 ≥ config.max_daily_loss
        · simp [RiskEngine.validate_signal, h, hl]
        · simp [RiskEngine.validate_signal, h, hl, ht]

/-- Witness for C1: a freshly registered strategy with zero counters is
allowed. -/
theorem validate_signal_priority_witness :
    RiskEngine.validate_signal (RiskEngine.register_strategy {} 1 {})
      { user_id := 1, strategy_id := 1, symbol := "NSE:SBIN-EQ",
        signal := "BUY", strength := 4/5 } = none := by
  have h := validate_signal_priority (RiskEngine.register_strategy {} 1 {})
    { user_id := 1, strategy_id := 1, symbol := "NSE:SBIN-EQ",
      signal := "BUY", strength := 4/5 }
  exact ((h.2 {} (by decide)).2.2.1 (by decide) (by decide))

/-- C10: record_loss, record_trade and reset_daily with a strategy id that
was never registered leave the whole risk state unchanged (for well-formed
states, where an id outside the config dict is outside the counter dicts
as well). -/
theorem record_ops_unregistered_frame (e : RiskEngine) (strategy_id : Nat)
    (loss : Rat) (hwf : e.wf) (h : dictGet e.configs strategy_id = none) :
    e.record_loss strategy_id loss = e ∧
    e.record_trade strategy_id = e ∧
    e.reset_daily strategy_id = e := by
  obtain ⟨h1, h2⟩ := hwf
  have hl : dictGet e.daily_loss strategy_id = none :=
    dictGet_none_of_keys_eq _ _ _ h1 h
  have ht : dictGet e.trade_count strategy_id = none :=
    dictGet_none_of_keys_eq _ _ _ h2 h
  refine ⟨?_, ?_, ?_⟩ <;>
    simp [RiskEngine.record_loss, RiskEngine.record_trade,
      RiskEngine.reset_daily, hl, ht]

/-- Witness for C10: recording a loss for an unregistered id on a state
with one registered strategy changes nothing. -/
theorem record_ops_unregistered_frame_witness :
    (RiskEngine.register_strategy {} 1 {}).record_loss 2 100 =
      RiskEngine.register_strategy {} 1 {} :=
  (record_ops_unregistered_frame (RiskEngine.register_strategy {} 1 {}) 2 100
    ⟨rfl, rfl⟩ (by decide)).1

/-- ASCII upper-casing; embeds str.upper() for the operator strings used
by the rule engine. -/
def upper (s : String) : String := String.mk (s.toList.map Char.toUpper)

/-- Character membership; embeds the Python test `c in s`. -/
def hasChar (s : String) (c : Char) : Bool := s.toList.contains c

/-- expr.replace("(", "_").replace(")", "") as used by
RuleCondition._resolve_value (both patterns are single characters). -/
def indicatorKey (s : String) : String :=
  String.mk ((s.toList.map fun c => if c = '(' then '_' else c).filter
    fun c => c != ')')

/-- Value of a digit string, most significant first. -/
def digitsVal (l : List Char) : Nat :=
  l.foldl (fun n c => n * 10 + (c.toNat - 48)) 0

/-- Numeric-literal recognition; embeds the `float(expr)` attempt in
RuleCondition._resolve_value for plain decimal literals with an optional
sign (the full Python float grammar additionally has exponents and special
values, which no rule source in the repository uses). -/
def parseDecimal? (s : String) : Option Rat :=
  let chars := s.toList
  let core := if chars.head? = some '-' || chars.head? = some '+'
              then chars.drop 1 else chars
  if core.all (fun c => c.isDigit || c == '.') &&
     core.any Char.isDigit &&
     (core.filter (fun c => c == '.')).length ≤ 1 then
    let fracPart := (core.dropWhile fun c => c != '.').drop 1
    let denom : Nat := 10 ^ fracPart.length
    let mag : Rat :=
      mkRat (Int.ofNat (digitsVal (core.takeWhile fun c => c != '.') * denom +
        digitsVal fracPart)) denom
    some (if chars.head? = some '-' then -mag else mag)
  else
    none

/-- A condition operand as it appears in the decoded rule JSON: either a
number or a string (indicator reference, raw key, or numeric literal). -/
inductive Operand where
  | num (value : Rat)
  | str (value : String)
deriving DecidableEq

/-- RuleCondition._resolve_value. -/
def resolve_value (expr : Operand) (data : List (String × Rat)) : Option Rat :=
  match expr with
  | .num q => some q
  | .str s =>
    match parseDecimal? s with
    | some q => some q
    | none =>
      if hasChar s '(' && hasChar s ')' then dictGet data (indicatorKey s)
      else dictGet data s

/-- The snapshot key an indicator-reference operand resolves against. -/
def refKey (s : String) : String :=
  if hasChar s '(' && hasChar s ')' then indicatorKey s else s

/-- A single rule condition (class RuleCondition). -/
structure RuleCondition where
  left : Operand
  op : String
  right : Operand
deriving DecidableEq

/-- RuleCondition._cross_above: the source collapses the crossing test to a
plain greater-than on the current snapshot (its data argument is unused). -/
def cross_above (l r : Rat) (_data : List (String × Rat)) : Bool :=
  decide (l > r)

/-- RuleCondition._cross_below. -/
def cross_below (l r : Rat) (_data : List (String × Rat)) : Bool :=
  decide (l < r)

/-- RuleCondition.evaluate. -/
def RuleCondition.evaluate (c : RuleCondition)
    (data : List (String × Rat)) : Bool :=
  match resolve_value c.left data, resolve_value c.right data with
  | some left_val, some right_val =>
    let op := upper c.op
    if op = "==" then left_val == right_val
    else if op = "!=" then left_val != right_val
    else if op = "<" then decide (left_val < right_val)
    else if op = "<=" then decide (left_val ≤ right_val)
    else if op = ">" then decide (left_val > right_val)
    else if op = ">=" then decide (left_val ≥ right_val)
    else if op = "CROSS_ABOVE" then cross_above left_val right_val data
    else if op = "CROSS_BELOW" then cross_below left_val right_val data
    else false
  | _, _ => false

/-- A complete rule (class Rule). -/
structure Rule where
  name : String
  conditions : List RuleCondition
  action : String
  operator : String
deriving DecidableEq

/-- Rule.__init__: action and operator are upper-cased on construction. -/
def mkRule (name : String) (conditions : List RuleCondition)
    (action : String) (oper : String) : Rule :=
  { name := name, conditions := conditions,
    action := upper action, operator := upper oper }

/-- Rule.evaluate: False on an empty condition list, conjunction of the
condition results under AND, disjunction under OR. -/
def Rule.evaluate (r : Rule) (data : List (String × Rat)) : Bool :=
  if r.conditions.isEmpty then false
  else
    let results := r.conditions.map (fun c => c.evaluate data)
    if r.operator = "AND" then results.all id
    else if r.operator = "OR" then results.any id
    else false

/-- The decoded JSON object handed to the Rule constructor by
RuleEngine.parse_rule_json, with the field defaults that method supplies
(the json.loads text-to-object step itself is outside the model). -/
structure RuleSource where
  name : String := "Unnamed"
  conditions : List (Operand × String × Operand) := []
  action : String := "NONE"
  operator : String := "AND"

/-- RuleEngine.parse_rule_json after json.loads: builds the Rule. -/
def parse_rule (src : RuleSource) : Rule :=
  mkRule src.name
    (src.conditions.map fun c => { left := c.1, op := c.2.1, right := c.2.2 })
    src.action src.operator

/-- Registered-rule state of class RuleEngine. -/
structure RuleEngine where
  rules : List (Nat × Rule) := []

/-- RuleEngine.evaluate: the registered rule's action when it triggers,
"NONE" otherwise or when the rule id is unknown. -/
def RuleEngine.evaluate (e : RuleEngine) (rule_id : Nat)
    (market_data : List (String × Rat)) : String :=
  match dictGet e.rules rule_id with
  | none => "NONE"
  | some rule => if rule.evaluate market_data then rule.action else "NONE"

/-- RuleEngine.evaluate_all: note that the source maps every triggered rule
to the literal "BUY", not to the rule's registered action. -/
def RuleEngine.evaluate_all (e : RuleEngine)
    (market_data : List (String × Rat)) : List (Nat × String) :=
  e.rules.map fun p => (p.1, if p.2.evaluate market_data then "BUY" else "NONE")

/-- Scenario-A rule of the spec, used by several concrete statements. -/
def scenarioRule : RuleSource :=
  { name := "EMA Crossover",
    conditions := [(.str "EMA(9)", ">", .str "EMA(21)"),
      (.str "RSI(14)", "<", .num 70)],
    action := "BUY", operator := "AND" }

theorem all_map_id {α : Type} (l : List α) (f : α → Bool) :
    (l.map f).all id = l.all f := by
  induction l with
  | nil => rfl
  | cons hd tl ih => simp [ih]

theorem any_map_id {α : Type} (l : List α) (f : α → Bool) :
    (l.map f).any id = l.any f := by
  induction l with
  | nil => rfl
  | cons hd tl ih => simp [ih]

theorem rule_evaluate_and (r : Rule) (data : List (String × Rat))
    (hne : r.conditions ≠ []) (hop : r.operator = "AND") :
    r.evaluate data = r.conditions.all (fun c => c.evaluate data) := by
  rw [Rule.evaluate, hop, if_neg (by simp [hne]), if_pos rfl]
  exact all_map_id _ _

theorem rule_evaluate_or (r : Rule) (data : List (String × Rat))
    (hne : r.conditions ≠ []) (hop : r.operator = "OR") :
    r.evaluate data = r.conditions.any (fun c => c.evaluate data) := by
  rw [Rule.evaluate, hop, if_neg (by simp [hne]), if_neg (by decide),
    if_pos rfl]
  exact any_map_id _ _

theorem engine_evaluate_single (r : Rule) (rule_id : Nat)
    (data : List (String × Rat)) :
    RuleEngine.evaluate { rules := [(rule_id, r)] } rule_id data
      = if r.evaluate data then r.action else "NONE" := by
  simp [RuleEngine.evaluate, dictGet]

/-- C3 (amended: the rule must have at least one condition): for every rule
source, parse followed by evaluate yields the rule's action on a snapshot
satisfying every condition under AND and yields "NONE" when some condition
is violated; under OR it yields the action when at least one condition is
satisfied and "NONE" when none is. -/
theorem parse_evaluate_and_or (src : RuleSource) (data : List (String × Rat))
    (rule_id : Nat) (hne : src.conditions ≠ []) :
    (((parse_rule src).operator = "AND" →
      ((∀ c ∈ (parse_rule src).conditions, c.evaluate data = true) →
        RuleEngine.evaluate { rules := [(rule_id, parse_rule src)] } rule_id data
          = (parse_rule src).action) ∧
      ((∃ c ∈ (parse_rule src).conditions, c.evaluate data = false) →
        RuleEngine.evaluate { rules := [(rule_id, parse_rule src)] } rule_id data
          = "NONE")) ∧
     ((parse_rule src).operator = "OR" →
      ((∃ c ∈ (parse_rule src).conditions, c.evaluate data = true) →
        RuleEngine.evaluate { rules := [(rule_id, parse_rule src)] } rule_id data
          = (parse_rule src).action) ∧
      ((∀ c ∈ (parse_rule src).conditions, c.evaluate data = false) →
        RuleEngine.evaluate { rules := [(rule_id, parse_rule src)] } rule_id data
          = "NONE"))) := by
  have hne2 : (parse_rule src).conditions ≠ [] := by
    simpa [parse_rule, mkRule] using hne
  constructor
  · intro hop
    constructor
    · intro hall
      rw [engine_evaluate_single]
      have hev : (parse_rule src).evaluate data = true := by
        rw [rule_evaluate_and _ _ hne2 hop]
        simpa [List.all_eq_true] using hall
      simp [hev]
    · intro hex
      rw [engine_evaluate_single]
      have hev : (parse_rule src).evaluate data = false := by
        rw [rule_evaluate_and _ _ hne2 hop]
        rcases hex with ⟨c, hc, hcf⟩
        simp only [List.all_eq_false]
        exact ⟨c, hc, by simp [hcf]⟩
      simp [hev]
  · intro hop
    constructor
    · intro hex
      rw [engine_evaluate_single]
      have hev : (parse_rule src).evaluate data = true := by
        rw [rule_evaluate_or _ _ hne2 hop]
        rcases hex with ⟨c, hc, hct⟩
        simp only [List.any_eq_true]
        exact ⟨c, hc, hct⟩
      simp [hev]
    · intro hall
      rw [engine_evaluate_single]
      have hev : (parse_rule src).evaluate data = false := by
        rw [rule_evaluate_or _ _ hne2 hop]
        simp only [List.any_eq_false]
        intro c hc
        simp [hall c hc]
      simp [hev]

/-- Witness for C3: the spec's Scenario A rule and snapshot: both conditions
hold under AND, and parse then evaluate yields the rule's action. -/
theorem parse_evaluate_and_or_witness :
    RuleEngine.evaluate { rules := [(1, parse_rule scenarioRule)] } 1
      [("EMA_9", 100), ("EMA_21", 99), ("RSI_14", 65)]
      = (parse_rule scenarioRule).action :=
  ((parse_evaluate_and_or scenarioRule
      [("EMA_9", 100), ("EMA_21", 99), ("RSI_14", 65)] 1 (by decide)).1
    (by decide)).1 (by decide)

/-- C3 fails as stated on the code, at two concrete inputs.  (a) A rule
source with combinator AND, action "BUY" and an empty condition list (the
parse defaults accept it): every condition is vacuously satisfied, yet
parse followed by evaluate yields "NONE", not the action.  (b) A rule with
action "NONE" and a violated condition yields its action "NONE" although
not every condition is satisfied, refuting the "exactly when" direction. -/
theorem parse_evaluate_and_counterexample :
    ((∀ c ∈ (parse_rule { action := "BUY" }).conditions, c.evaluate [] = true) ∧
      (parse_rule { action := "BUY" }).operator = "AND" ∧
      (parse_rule { action := "BUY" }).action = "BUY" ∧
      RuleEngine.evaluate { rules := [(1, parse_rule { action := "BUY" })] } 1 []
        = "NONE") ∧
    ((RuleCondition.evaluate { left := Operand.num 70, op := "<", right := Operand.num 60 } [] = false) ∧
      (parse_rule { conditions := [(.num 70, "<", .num 60)], action := "NONE" }).action = "NONE" ∧
      RuleEngine.evaluate
        { rules := [(1, parse_rule { conditions := [(.num 70, "<", .num 60)], action := "NONE" })] } 1 []
        = "NONE") := by
  constructor
  · exact ⟨by decide, by decide, by decide, by decide⟩
  · exact ⟨by decide, by decide, by decide⟩

/-- The repository test suite's OR rule with action SELL
(test_rule_engine_or_operator). -/
def orSellRule : RuleSource :=
  { name := "EMA or RSI",
    conditions := [(.str "EMA(9)", ">", .str "EMA(21)"),
      (.str "RSI(14)", ">", .num 70)],
    action := "SELL", operator := "OR" }

/-- C4 fails on the code: evaluate_all maps every triggered rule to the
literal "BUY".  On the repository's own OR-rule test (action SELL) the
single-rule evaluate returns "SELL" but evaluate_all returns "BUY" for the
same snapshot. -/
theorem evaluate_all_ignores_registered_action :
    (parse_rule orSellRule).action = "SELL" ∧
    RuleEngine.evaluate { rules := [(1, parse_rule orSellRule)] } 1
      [("EMA_9", 100), ("EMA_21", 99), ("RSI_14", 50)] = "SELL" ∧
    RuleEngine.evaluate_all { rules := [(1, parse_rule orSellRule)] }
      [("EMA_9", 100), ("EMA_21", 99), ("RSI_14", 50)] = [(1, "BUY")] := by
  exact ⟨by decide, by decide, by decide⟩

/-- C5 fails on the code: the CROSS_ABOVE / CROSS_BELOW operators keep no
prior-tick state; on every snapshot they evaluate exactly as the plain
greater-than / less-than comparison does, so a condition whose left operand
was already above the right operand on the previous tick triggers again on
the current tick. -/
theorem cross_ops_are_plain_comparisons (left right : Operand)
    (data : List (String × Rat)) :
    (RuleCondition.evaluate { left := left, op := "CROSS_ABOVE", right := right } data
      = RuleCondition.evaluate { left := left, op := ">", right := right } data) ∧
    (RuleCondition.evaluate { left := left, op := "CROSS_BELOW", right := right } data
      = RuleCondition.evaluate { left := left, op := "<", right := right } data) := by
  constructor <;>
    cases hl : resolve_value left data <;>
      cases hr : resolve_value right data <;>
        simp [RuleCondition.evaluate, hl, hr, cross_above, cross_below, upper]

/-- C9: a condition one of whose operands references a snapshot key absent
from the data evaluates to false (fail-closed, no exception path), and
evaluation of the rest of the rule continues: an OR rule containing such a
condition still triggers when another of its conditions is satisfied. -/
theorem missing_key_fails_single_condition (s : String) (op : String)
    (other : Operand) (data : List (String × Rat)) (name act : String)
    (rest : List RuleCondition)
    (hnum : parseDecimal? s = none)
    (hmiss : dictGet data (refKey s) = none) :
    RuleCondition.evaluate { left := Operand.str s, op := op, right := other } data = false ∧
    RuleCondition.evaluate { left := other, op := op, right := Operand.str s } data = false ∧
    ((∃ c ∈ rest, c.evaluate data = true) →
      Rule.evaluate { name := name,
                      conditions :=
                        { left := Operand.str s, op := op, right := other } :: rest,
                      action := act, operator := "OR" } data = true) := by
  have hres : resolve_value (Operand.str s) data = none := by
    by_cases hc : (hasChar s '(' && hasChar s ')') = true
    · simp only [refKey, if_pos hc] at hmiss
      simp [resolve_value, hnum, hc, hmiss]
    · simp only [refKey, if_neg hc] at hmiss
      simp [resolve_value, hnum, hc, hmiss]
  refine ⟨?_, ?_, ?_⟩
  · cases hr : resolve_value other data <;>
      simp [RuleCondition.evaluate, hres, hr]
  · cases hl : resolve_value other data <;>
      simp [RuleCondition.evaluate, hres, hl]
  · rintro ⟨c, hc, hct⟩
    rw [rule_evaluate_or _ _ (by simp) rfl]
    simp only [List.any_eq_true]
    exact ⟨c, by simp [hc], hct⟩

/-- Witness for C9: a condition referencing RSI_14 against a snapshot that
lacks it evaluates to false. -/
theorem missing_key_fails_single_condition_witness :
    RuleCondition.evaluate
      { left := Operand.str "RSI(14)", op := "<", right := Operand.num 70 }
      [("EMA_9", 100), ("EMA_21", 99)] = false :=
  (missing_key_fails_single_condition "RSI(14)" "<" (Operand.num 70)
    [("EMA_9", 100), ("EMA_21", 99)] "r" "BUY"
    [{ left := Operand.str "EMA(9)", op := ">", right := Operand.str "EMA(21)" }]
    (by decide) (by decide)).1

/-- Order states (enum OrderStatus in app/models). -/
inductive OrderStatus where
  | CREATED | VALIDATED | SENT | ACK | PARTIAL | FILLED | REJECTED | CANCELED
deriving DecidableEq

/-- A persisted order row (class Order in app/models) restricted to the
fields the kill switch reads and writes. -/
structure DBOrder where
  id : Nat
  user_id : Nat
  symbol : String
  status : OrderStatus
deriving DecidableEq

/-- The statuses the kill-switch query selects (the non-terminal ones). -/
def activeStatuses : List OrderStatus :=
  [.CREATED, .VALIDATED, .SENT, .ACK, .PARTIAL]

/-- The terminal order states. -/
def terminalStatuses : List OrderStatus := [.FILLED, .REJECTED, .CANCELED]

/-- The kill-switch query filter: the caller's orders in an active state. -/
def isActiveFor (user_id : Nat) (o : DBOrder) : Bool :=
  o.user_id == user_id && activeStatuses.contains o.status

/-- activate_kill_switch (app/api): selects the caller's orders whose status
is in the active set, sets each selected order's status to CANCELED, and
returns the updated table together with the number of orders cancelled. -/
def activate_kill_switch (db : List DBOrder) (user_id : Nat) :
    List DBOrder × Nat :=
  (db.map fun o => if isActiveFor user_id o
      then { o with status := OrderStatus.CANCELED } else o,
   (db.filter (isActiveFor user_id)).length)

theorem mem_active_iff_not_terminal (st : OrderStatus) :
    st ∈ activeStatuses ↔ st ∉ terminalStatuses := by
  cases st <;> decide

/-- C2: activate_kill_switch leaves the table's length unchanged; every
order of the caller's scope whose status was outside the terminal set
{FILLED, REJECTED, CANCELED} is CANCELED afterwards; an order in a terminal
state is unchanged; and the returned count is exactly the number of the
caller's orders outside the terminal set at call time. -/
theorem kill_switch_cancels_active_exactly (db : List DBOrder)
    (user_id i : Nat) (h1 : i < db.length)
    (h2 : i < (activate_kill_switch db user_id).1.length) :
    ((activate_kill_switch db user_id).1.length = db.length) ∧
    (db[i].user_id = user_id → db[i].status ∉ terminalStatuses →
      (activate_kill_switch db user_id).1[i].status = OrderStatus.CANCELED) ∧
    (db[i].status ∈ terminalStatuses →
      (activate_kill_switch db user_id).1[i] = db[i]) ∧
    ((activate_kill_switch db user_id).2 =
      (db.filter fun o => o.user_id == user_id &&
        ! terminalStatuses.contains o.status).length) := by
  refine ⟨?_, ?_, ?_, ?_⟩
  · simp [activate_kill_switch]
  · intro hu ht
    have hact : isActiveFor user_id db[i] = true := by
      simp only [isActiveFor, Bool.and_eq_true, beq_iff_eq]
      exact ⟨hu, by simpa using (mem_active_iff_not_terminal _).mpr ht⟩
    simp [activate_kill_switch, hact]
  · intro ht
    have hact : isActiveFor user_id db[i] = false := by
      simp only [isActiveFor, Bool.and_eq_false_iff]
      right
      simpa using fun ha => ((mem_active_iff_not_terminal _).mp ha) ht
    simp [activate_kill_switch, hact]
  · simp only [activate_kill_switch]
    apply congrArg List.length
    apply List.filter_congr
    intro o _
    by_cases hmem : o.status ∈ terminalStatuses <;>
      simp [isActiveFor, hmem, mem_active_iff_not_terminal]

/-- A three-order table exercising the kill switch. -/
def wdb : List DBOrder :=
  [{ id := 1, user_id := 7, symbol := "A", status := .SENT },
   { id := 2, user_id := 7, symbol := "B", status := .FILLED },
   { id := 3, user_id := 8, symbol := "C", status := .ACK }]

/-- Witness for C2: on the three-order table, user 7 has exactly one
non-terminal order and the kill switch reports exactly one cancellation. -/
theorem kill_switch_cancels_active_exactly_witness :
    (activate_kill_switch wdb 7).2 = 1 :=
  ((kill_switch_cancels_active_exactly wdb 7 0 (by decide)
    (by decide)).2.2.2).trans (by decide)

/-- Modelled from the spec: OrderEvent (module app.events is absent from
the sources; fields per section 3, the constructor calls in engine/core.py
and execution, and the repository test asserting the "CREATED" default
status).  An absent client_order_id (the Python falsy test
`not order.client_order_id`) is modelled by the empty string. -/
structure OrderEvent where
  user_id : Nat
  strategy_id : Nat
  symbol : String
  order_type : String
  side : String
  quantity : Rat
  price : Rat := 0
  client_order_id : String := ""
  broker_order_id : String := ""
  status : String := "CREATED"
deriving DecidableEq

/-- Modelled from the spec: FillEvent (module app.events is absent from the
sources; fields per section 3 and the constructor calls in execution).
The field fractional renders the source's is-partial flag. -/
structure FillEvent where
  user_id : Nat
  strategy_id : Nat
  symbol : String
  order_id : String
  quantity : Rat
  price : Rat
  commission : Rat
  fractional : Bool
deriving DecidableEq

/-- Configuration of PaperExecutionHandler: the source constructor fixes
the slippage percentage at 0.05 and the probability of a split (partial)
fill at 0.10; fill_split_chance renders the source's partial-fill chance. -/
structure PaperExecutionHandler where
  slippage_percent : Rat := mkRat 5 100
  fill_split_chance : Rat := mkRat 10 100
deriving DecidableEq

/-- PaperExecutionHandler.execute_order.  The two random draws are explicit
arguments: u models random.random(), the draw in [0,1) compared against the
split chance, and frac models random.uniform(0.5, 0.9), the fraction filled
when the fill is split.  The random network delay affects timing only and
is outside the model. -/
def execute_paper (h : PaperExecutionHandler) (order : OrderEvent)
    (u frac : Rat) : FillEvent :=
  let fill_price :=
    if order.side = "BUY" then order.price * (1 + h.slippage_percent / 100)
    else order.price * (1 - h.slippage_percent / 100)
  let filled_qty := if u < h.fill_split_chance
    then order.quantity * frac else order.quantity
  { user_id := order.user_id, strategy_id := order.strategy_id,
    symbol := order.symbol, order_id := order.client_order_id,
    quantity := filled_qty, price := fill_price,
    commission := filled_qty * fill_price * mkRat 5 10000,
    fractional := decide (u < h.fill_split_chance) }

/-- Scenario-D handler: partial-fill probability configured to zero. -/
def scenarioHandler : PaperExecutionHandler := { fill_split_chance := 0 }

/-- Scenario-D order: BUY MARKET, 10 units at price 100. -/
def scenarioOrder : OrderEvent :=
  { user_id := 1, strategy_id := 1, symbol := "NSE:SBIN-EQ",
    order_type := "MARKET", side := "BUY", quantity := 10, price := 100 }

/-- C8: paper execution applies slippage against the taker direction (fill
price at or above the requested price for a BUY, at or below it for a
SELL), commission is the fixed rate 0.0005 on the filled notional and hence
nonnegative, and the Scenario-D instance (BUY MARKET, 10 units at price
100, zero partial-fill probability) yields the one returned fill with
quantity 10, price at least 100 and no partial flag. -/
theorem paper_execution_slippage_commission (h : PaperExecutionHandler)
    (order : OrderEvent) (u frac : Rat)
    (hs : 0 ≤ h.slippage_percent) (hs100 : h.slippage_percent ≤ 100)
    (hp : 0 ≤ order.price) (hq : 0 ≤ order.quantity) (hf : 0 ≤ frac) :
    (order.side = "BUY" → order.price ≤ (execute_paper h order u frac).price) ∧
    (order.side = "SELL" → (execute_paper h order u frac).price ≤ order.price) ∧
    0 ≤ (execute_paper h order u frac).commission ∧
    ((execute_paper h order u frac).commission =
      (execute_paper h order u frac).quantity *
        (execute_paper h order u frac).price * mkRat 5 10000) ∧
    (0 ≤ u →
      (execute_paper scenarioHandler scenarioOrder u frac).quantity = 10 ∧
      100 ≤ (execute_paper scenarioHandler scenarioOrder u frac).price ∧
      (execute_paper scenarioHandler scenarioOrder u frac).fractional = false) := by
  have hs' : 0 ≤ h.slippage_percent / 100 := by positivity
  have hs100' : h.slippage_percent / 100 ≤ 1 := by linarith
  have hqty : 0 ≤ (execute_paper h order u frac).quantity := by
    simp only [execute_paper]
    split_ifs with hsplit
    · exact mul_nonneg hq hf
    · exact hq
  have hprice : 0 ≤ (execute_paper h order u frac).price := by
    simp only [execute_paper]
    split_ifs with hbuy
    · nlinarith
    · nlinarith
  refine ⟨?_, ?_, ?_, ?_, ?_⟩
  · intro hbuy
    simp only [execute_paper]
    rw [if_pos hbuy]
    nlinarith
  · intro hsell
    have hnb : order.side ≠ "BUY" := by rw [hsell]; decide
    simp only [execute_paper]
    rw [if_neg hnb]
    nlinarith
  · have : (0 : Rat) ≤ mkRat 5 10000 := by rw [Rat.mkRat_eq_div]; positivity
    simpa only [execute_paper] using
      mul_nonneg (mul_nonneg (by simpa only [execute_paper] using hqty)
        (by simpa only [execute_paper] using hprice)) this
  · simp [execute_paper]
  · intro hu
    have hnosplit : ¬ u < scenarioHandler.fill_split_chance := by
      simp only [scenarioHandler]
      exact not_lt.mpr hu
    refine ⟨?_, ?_, ?_⟩
    · simp [execute_paper, hnosplit, scenarioOrder]
    · simp only [execute_paper, scenarioOrder, scenarioHandler]
      norm_num [Rat.mkRat_eq_div]
    · simp [execute_paper, hnosplit]

/-- Witness for C8: the default paper handler on the Scenario-D order with
a concrete non-splitting draw fills the full 10 units. -/
theorem paper_execution_slippage_commission_witness :
    (execute_paper scenarioHandler scenarioOrder (mkRat 1 2)
      (mkRat 7 10)).quantity = 10 :=
  (((paper_execution_slippage_commission scenarioHandler scenarioOrder
    (mkRat 1 2) (mkRat 7 10) (by decide) (by decide) (by decide) (by decide)
    (by decide)).2.2.2.2) (by decide)).1

/-- A broker order-placement request as assembled by
LiveFyersExecutionHandler.execute_order. -/
structure PlaceRequest where
  symbol : String
  order_type : String
  side : String
  qty : Int
  price : Rat
  client_order_id : String
deriving DecidableEq

/-- The broker reply to place_order (the fields execute_order reads). -/
structure PlaceResult where
  status : String
  id : String
deriving DecidableEq

/-- The broker reply to get_order_status (the fields execute_order reads);
price is optional because the source falls back to the order's price. -/
structure StatusResult where
  status : String
  filledqty : Rat
  price : Option Rat
deriving DecidableEq

/-- The broker client as the live handler sees it: response functions for
the two calls execute_order makes (class FyersClient performs them over
HTTP; the transport is outside the model). -/
structure Broker where
  place_order : PlaceRequest → PlaceResult
  get_order_status : String → StatusResult

/-- LiveFyersExecutionHandler.execute_order.  gen_id stands for the
uuid-derived fresh id used when the order carries no client_order_id.
Returns none on a non-success placement (the source returns None),
otherwise the fill built from the status lookup.  int(order.quantity) is
rendered as Rat.floor, which agrees with Python int() on the nonnegative
quantities orders carry.  The handler keeps no record of previously used
client order ids: every call places a fresh broker order. -/
def live_execute (b : Broker) (gen_id : String) (order : OrderEvent) :
    Option FillEvent :=
  let order1 := if order.client_order_id = ""
                then { order with client_order_id := gen_id } else order
  let result := b.place_order
    { symbol := order1.symbol, order_type := order1.order_type,
      side := order1.side, qty := order1.quantity.floor,
      price := if order1.order_type = "LIMIT" then order1.price else 0,
      client_order_id := order1.client_order_id }
  if result.status ≠ "success" then none
  else
    let st := b.get_order_status result.id
    let fill_price := st.price.getD order1.price
    some { user_id := order1.user_id, strategy_id := order1.strategy_id,
           symbol := order1.symbol, order_id := result.id,
           quantity := st.filledqty, price := fill_price,
           commission := st.filledqty * fill_price * mkRat 5 10000,
           fractional := st.status == "PARTIAL" }

/-- A sequence of submissions through the live handler, collecting the
fills produced. -/
def live_execute_all (b : Broker) (gen_id : String)
    (orders : List OrderEvent) : List FillEvent :=
  orders.filterMap (live_execute b gen_id)

/-- A broker that accepts every placement and reports a full fill of 10
units at price 100. -/
def acceptBroker : Broker :=
  { place_order := fun _ => { status := "success", id := "B1" },
    get_order_status := fun _ =>
      { status := "FILLED", filledqty := 10, price := some 100 } }

/-- An order submitted with an explicit client_order_id. -/
def dupOrder : OrderEvent :=
  { user_id := 1, strategy_id := 1, symbol := "NSE:SBIN-EQ",
    order_type := "MARKET", side := "BUY", quantity := 10, price := 100,
    client_order_id := "abc" }

/-- C7 fails on the code: the live handler performs no duplicate-id check,
so submitting the same order with the same client_order_id twice against a
broker that accepts both placements produces two fills of 10 units each —
the second submission is silently re-sent, not rejected and not reported
as a duplicate-submission error. -/
theorem duplicate_submission_produces_two_fills :
    (live_execute_all acceptBroker "gen" [dupOrder, dupOrder]).length = 2 ∧
    (∀ f ∈ live_execute_all acceptBroker "gen" [dupOrder, dupOrder],
      f.quantity = 10 ∧ f.order_id = "B1") ∧
    live_execute acceptBroker "gen" dupOrder ≠ none := by
  refine ⟨by decide, by decide, by decide⟩

theorem dictGet_dictSet_self {α β : Type} [DecidableEq α]
    (m : List (α × β)) (k : α) (v : β) :
    dictGet (dictSet m k v) k = some v := by
  induction m with
  | nil => simp [dictGet, dictSet]
  | cons hd tl ih =>
    obtain ⟨k0, v0⟩ := hd
    by_cases h : k0 = k <;> simp [dictGet, dictSet, h, ih]

/-- The orchestrator state TradingEngine._on_fill_event touches: the
position ledger and the risk engine. -/
structure EngineState where
  risk : RiskEngine
  positions : List (String × Rat)
deriving DecidableEq

/-- TradingEngine._on_fill_event: adds the fill quantity to the symbol's
position (self.positions.get(symbol, 0) + quantity) and records the trade
with the risk engine.  No call feeds record_loss. -/
def on_fill_event (st : EngineState) (event : FillEvent) : EngineState :=
  let current := (dictGet st.positions event.symbol).getD 0
  { risk := st.risk.record_trade event.strategy_id,
    positions := dictSet st.positions event.symbol (current + event.quantity) }

/-- Engine state with strategy 1 registered and no open positions. -/
def fillState : EngineState :=
  { risk := RiskEngine.register_strategy {} 1 {}, positions := [] }

/-- The fill the paper handler produces for a SELL MARKET order of 10 units
at price 100 (full fill: the draw 1/2 is not below the split chance). -/
def sellFill : FillEvent :=
  execute_paper {}
    { user_id := 1, strategy_id := 1, symbol := "NSE:SBIN-EQ",
      order_type := "MARKET", side := "SELL", quantity := 10, price := 100,
      client_order_id := "c1" }
    (mkRat 1 2) (mkRat 7 10)

/-- C6 fails on the code: the fill handler always adds the raw fill
quantity to the position, never subtracting for a SELL, and it never calls
record_loss.  Generally, for every state and fill the position moves up by
the fill quantity and the daily-loss counters are untouched; concretely, a
SELL fill of 10 units moves the flat position to +10 (the claim requires
-10) while the trade counter alone is updated. -/
theorem fill_handler_ignores_side_and_loss :
    (∀ (st : EngineState) (f : FillEvent),
      dictGet (on_fill_event st f).positions f.symbol =
        some ((dictGet st.positions f.symbol).getD 0 + f.quantity) ∧
      (on_fill_event st f).risk.daily_loss = st.risk.daily_loss) ∧
    sellFill.quantity = 10 ∧
    dictGet (on_fill_event fillState sellFill).positions "NSE:SBIN-EQ"
      = some 10 ∧
    (on_fill_event fillState sellFill).risk.daily_loss
      = fillState.risk.daily_loss ∧
    (on_fill_event fillState sellFill).risk.trade_count = [(1, 1)] := by
  have hgen : ∀ (st : EngineState) (f : FillEvent),
      dictGet (on_fill_event st f).positions f.symbol =
        some ((dictGet st.positions f.symbol).getD 0 + f.quantity) ∧
      (on_fill_event st f).risk.daily_loss = st.risk.daily_loss := by
    intro st f
    constructor
    · simp [on_fill_event, dictGet_dictSet_self]
    · cases h : dictGet st.risk.trade_count f.strategy_id <;>
        simp [on_fill_event, RiskEngine.record_trade, h]
  refine ⟨hgen, by decide, ?_, by decide, by decide⟩
  have hsym : sellFill.symbol = "NSE:SBIN-EQ" := by decide
  have hq10 : sellFill.quantity = 10 := by decide
  have hpos := (hgen fillState sellFill).1
  rw [hsym] at hpos
  rw [hpos, hq10]
  simp [fillState, dictGet]
